import Mathlib

/-!
Verification of the smart-fridge repository (frontend dashboard code and the
documented backend behaviour).

The definitions in the `Frontend` and `Dashboard` namespaces are shallow
embeddings of the JavaScript in `src/frontend/src/utils/api.js` and
`src/dashboard/dashboard.js`.  The definitions in the `Backend` namespace model
the server-side pipeline (inventory reconciliation, upload coordinator, chat
orchestrator); the Python backend itself is not among the repository's source
files, so those definitions are modelled from the specification, as indicated
in their doc comments.
-/

namespace Frontend

/-- A JavaScript value as it reaches the sensor classifier: either a number or
`undefined` (a missing reading).  In JavaScript every `<`/`>` comparison with
`undefined` evaluates to `false`. -/
inductive JsVal where
  | undef : JsVal
  | num : ℚ → JsVal
deriving DecidableEq, Repr

/-- JavaScript `v < b` for a possibly-undefined left operand: comparison with
`undefined` is `false`. -/
def jsLt (v : JsVal) (b : ℚ) : Bool :=
  match v with
  | .undef => false
  | .num a => a < b

/-- JavaScript `v > b` for a possibly-undefined left operand: comparison with
`undefined` is `false`. -/
def jsGt (v : JsVal) (b : ℚ) : Bool :=
  match v with
  | .undef => false
  | .num a => a > b

/-- Embedding of `getSensorStatus` from `src/frontend/src/utils/api.js`
(lines 46-63; an identical copy appears in the second Dashboard page file):
a `switch` on the sensor type with fixed numeric thresholds, falling through
to `"normal"` for unrecognised types. -/
def getSensorStatus (type : String) (value : JsVal) : String :=
  if type = "temp" then
    if jsLt value 2 || jsGt value 7 then "danger"
    else if jsLt value 3 || jsGt value 6 then "warning"
    else "normal"
  else if type = "humidity" then
    if jsLt value 40 || jsGt value 75 then "danger"
    else if jsLt value 45 || jsGt value 70 then "warning"
    else "normal"
  else if type = "gas" then
    if jsGt value 300 then "danger"
    else if jsGt value 200 then "warning"
    else "normal"
  else "normal"

end Frontend

namespace Dashboard

/-- Embedding of the temperature-highlight branch of `updateSensorReadings`
in `src/dashboard/dashboard.js` (lines 563-570): when `data.temp` is neither
`null` nor `undefined`, the element's class is set to
`"reading-value warning"` when `temp > 5 || temp < 1` and to
`"reading-value"` otherwise; when the reading is absent the class is left
unchanged. -/
def updateTempClass (temp : Option ℚ) (oldClass : String) : String :=
  match temp with
  | none => oldClass
  | some t => if t > 5 || t < 1 then "reading-value warning" else "reading-value"

/-- Embedding of `MAX_RETRY_ATTEMPTS` from `src/unnamed/part_004` line 5. -/
def MAX_RETRY_ATTEMPTS : Nat := 3

/-- Outcome of one `fetch` to `POST /api/chat` inside `sendMessage`
(`src/unnamed/part_004` lines 293-329): the response was ok, the response was
an HTTP error, or the `fetch` threw (network error).  The latter two both
increment `attempt` and continue the loop. -/
inductive FetchOutcome where
  | ok : FetchOutcome
  | httpError : FetchOutcome
  | networkError : FetchOutcome
deriving DecidableEq, Repr

/-- Embedding of the retry loop of `sendMessage` in `src/unnamed/part_004`:
`while (attempt < MAX_RETRY_ATTEMPTS && !success)` with one `fetch` per
iteration; a successful response sets `success = true`, any failure increments
`attempt`.  `outcomes n` is the outcome of the fetch issued with
`attempt = n`; the result counts the loop iterations, which equals the number
of `POST /api/chat` requests issued (each iteration performs exactly one
fetch).  The function is total, which is the termination evidence for the
loop. -/
def chatRequestCount (outcomes : Nat → FetchOutcome) (attempt : Nat)
    (success : Bool) : Nat :=
  if h : attempt < MAX_RETRY_ATTEMPTS ∧ success = false then
    match outcomes attempt with
    | .ok => 1 + chatRequestCount outcomes attempt true
    | .httpError => 1 + chatRequestCount outcomes (attempt + 1) false
    | .networkError => 1 + chatRequestCount outcomes (attempt + 1) false
  else 0
termination_by (MAX_RETRY_ATTEMPTS - attempt, if success then 0 else 1)
decreasing_by
  all_goals first
    | exact Prod.Lex.right _ (by simp [h.2])
    | exact Prod.Lex.left _ _ (by omega)

end Dashboard

namespace Backend

/-- Whitespace recognised by the trimming step of name normalisation. -/
def isWs (c : Char) : Bool := c = ' ' || c = '\t' || c = '\n' || c = '\r'

/-- Trim leading and trailing whitespace from a character list. -/
def trimChars (l : List Char) : List Char :=
  ((l.dropWhile isWs).reverse.dropWhile isWs).reverse

/-- Modelled from the spec: name normalisation used by the Item Reconciliation
Engine, "Normalize `name` via trim + lowercase for comparison only" (spec
section 4.3 step 1).  The backend source is not in the repository.  Trim and
lowercase are implemented structurally over the string's character list so
that the function evaluates by kernel reduction. -/
def normName (s : String) : String := ⟨trimChars (s.data.map Char.toLower)⟩

/-- Modelled from the spec: an Item row of the `items` table — identifier,
display name (caller-supplied casing), quantity, optional expiry date (spec
section 3 and the database schema in `src/docs/api_reference.md`). -/
structure Item where
  id : Nat
  name : String
  quantity : Int
  expiry : Option String
deriving DecidableEq, Repr

/-- Modelled from the spec: a User row together with the Items it owns (spec
section 3). -/
structure UserRec where
  username : String
  items : List Item
deriving DecidableEq, Repr

/-- Modelled from the spec: the Inventory Store — all user rows plus the
auto-increment counter for item identifiers. -/
structure Store where
  users : List UserRec
  nextId : Nat
deriving DecidableEq, Repr

/-- The Inventory Store of a fresh deployment: no users, counter at zero. -/
def emptyStore : Store := { users := [], nextId := 0 }

/-- Modelled from the spec: the error taxonomy of spec section 7. -/
inductive ApiError where
  | MissingUsername : ApiError
  | InvalidPayload : ApiError
  | NotFound : ApiError
  | InvalidQuantity : ApiError
  | VisionUnavailable : ApiError
  | ChatServiceUnavailable : ApiError
  | StorageError : ApiError
deriving DecidableEq, Repr

/-- Modelled from the spec: the HTTP status each surfaced error maps to
(spec sections 6 and 7): validation errors are 4xx, absence is 404, external
and storage failures that do surface are 500. -/
def errStatus : ApiError → Nat
  | .MissingUsername => 400
  | .InvalidPayload => 400
  | .InvalidQuantity => 400
  | .NotFound => 404
  | .VisionUnavailable => 500
  | .ChatServiceUnavailable => 500
  | .StorageError => 500

/-- Look up a user row by exact username (first match). -/
def getUser (st : Store) (username : String) : Option UserRec :=
  st.users.find? (fun u => u.username == username)

/-- Replace the item list of every user row carrying the given username. -/
def setUserItems (users : List UserRec) (username : String)
    (items : List Item) : List UserRec :=
  users.map (fun u => if u.username = username then { u with items := items } else u)

/-- Find the first item whose normalised name matches the given name. -/
def findNorm (items : List Item) (nm : String) : Option Item :=
  items.find? (fun it => normName it.name == normName nm)

/-- Modelled from the spec: the update applied to a matched item by `upsert`
(spec section 4.3 step 3): add the delta to the quantity and overwrite the
expiry date when one is supplied, keeping the stored display casing. -/
def bumpItem (it : Item) (d : Int) (e? : Option String) : Item :=
  { it with
    quantity := it.quantity + d
    expiry := match e? with
              | some e => some e
              | none => it.expiry }

/-- Modelled from the spec: the in-place merge step of `upsert` (spec section
4.3 step 3).  Walks the item list looking for an item whose normalised name
matches; on a match it adds the delta (rejecting with `InvalidQuantity` any
delta that would drive the quantity below zero) and overwrites the expiry date
when one is supplied, keeping the stored display casing.  Returns `none` when
no item matches. -/
def mergeExisting : List Item → String → Int → Option String →
    Option (Except ApiError (List Item))
  | [], _, _, _ => none
  | it :: rest, nm, d, e? =>
    if normName it.name = normName nm then
      some (if it.quantity + d < 0 then .error .InvalidQuantity
            else .ok (bumpItem it d e? :: rest))
    else
      match mergeExisting rest nm d e? with
      | none => none
      | some (.error e) => some (.error e)
      | some (.ok rest') => some (.ok (it :: rest'))

/-- Modelled from the spec: `upsert(username, name, quantity_delta,
expiry_date?) -> Item` of the Item Reconciliation Engine (spec section 4.3).
An unknown user is auto-provisioned; a matching item receives the delta via
`mergeExisting`; otherwise a new row is created with quantity
`max(quantity_delta, 1)` and the caller-supplied casing.  An error produces no
new store (the state is unchanged). -/
def upsert (st : Store) (username nm : String) (d : Int) (e? : Option String) :
    Except ApiError Store :=
  match getUser st username with
  | none =>
    let it : Item := { id := st.nextId, name := nm, quantity := max d 1, expiry := e? }
    .ok { users := st.users ++ [{ username := username, items := [it] }],
          nextId := st.nextId + 1 }
  | some u =>
    match mergeExisting u.items nm d e? with
    | some (.error e) => .error e
    | some (.ok items') =>
      .ok { st with users := setUserItems st.users username items' }
    | none =>
      let it : Item := { id := st.nextId, name := nm, quantity := max d 1, expiry := e? }
      .ok { users := setUserItems st.users username (u.items ++ [it]),
            nextId := st.nextId + 1 }

/-- Modelled from the spec: `merge(username, detected_items)` of the Item
Reconciliation Engine (spec section 4.3) — one `upsert` per detected name with
its coalesced count; a rejected delta leaves the store as it was. -/
def merge (st : Store) (username : String) (detected : List (String × Int)) :
    Store :=
  detected.foldl
    (fun s p =>
      match upsert s username p.1 p.2 none with
      | .ok s' => s'
      | .error _ => s) st

/-- Modelled from the spec: `remove(username, item_id)` of the Item
Reconciliation Engine (spec section 4.3): fails with `NotFound` when the user
or the item does not exist, otherwise deletes the row. -/
def removeItem (st : Store) (username : String) (itemId : Nat) :
    Except ApiError Store :=
  match getUser st username with
  | none => .error .NotFound
  | some u =>
    if u.items.any (fun it => it.id == itemId) then
      .ok { st with users :=
              setUserItems st.users username (u.items.filter (fun it => it.id != itemId)) }
    else .error .NotFound

/-- Modelled from the spec: the read path `GET /api/user/{username}/items`
(spec sections 4.3 step 2 and 6): a read that finds no user returns `NotFound`
(404) and never creates one; the store component of the result is the store
after the request. -/
def getUserItemsEndpoint (st : Store) (username : String) :
    Except ApiError (List Item) × Store :=
  match getUser st username with
  | none => (.error .NotFound, st)
  | some u => (.ok u.items, st)

/-- Modelled from the spec: a SensorSnapshot — temperature, humidity, gas
level and timestamp (spec section 3). -/
structure SensorData where
  temp : ℚ
  humidity : ℚ
  gas : ℚ
  timestamp : String
deriving DecidableEq, Repr

/-- Modelled from the spec: the `data` multipart part as received by the
upload endpoint — either bytes that fail JSON parsing or a well-formed sensor
payload (spec section 4.4: "parse `sensor_json` (malformed JSON fails
`InvalidPayload`)"). -/
inductive DataPart where
  | malformed : DataPart
  | wellFormed : SensorData → DataPart
deriving DecidableEq, Repr

/-- Modelled from the spec: the Guardrail Classifier verdict (spec section
4.1). -/
structure GuardrailVerdict where
  is_food_likely : Bool
  confidence : ℚ
  method : String
deriving DecidableEq, Repr

/-- Modelled from the spec: the Vision Analyzer's DetectionResult — detected
(name, confidence) pairs and an overall confidence (spec sections 3 and
4.2). -/
structure DetectionResult where
  detections : List (String × ℚ)
  overall : ℚ
deriving DecidableEq, Repr

/-- Modelled from the spec: the server-side mutable state an upload can touch:
the shared SensorSnapshot (latest reading, written only by the upload
coordinator) and the Inventory Store. -/
structure ServerState where
  snapshot : Option SensorData
  store : Store
deriving DecidableEq, Repr

/-- Modelled from the spec: temperature-status classification of the upload
response, "derived purely from the sensor snapshot using fixed thresholds"
(spec sections 4.4 and 8): below 2 or above 7 is danger, below 3 or above 6
is warning, otherwise normal. -/
def tempStatus (t : ℚ) : String :=
  if t < 2 ∨ t > 7 then "danger"
  else if t < 3 ∨ t > 6 then "warning"
  else "normal"

/-- Modelled from the spec: the body of a successful upload response (spec
sections 4.4 and 6): guardrail verdict, whether the image was processed, the
detected food items and the temperature status. -/
structure UploadResponse where
  image_processed : Bool
  food_items : List String
  guardrail : Option GuardrailVerdict
  temperature_status : String
deriving DecidableEq, Repr

/-- Modelled from the spec: coalescing of duplicate names detected in one
round, "duplicate names in one detection round are coalesced by count before
merging" (spec section 4.4); duplicates are identified by normalised name. -/
def coalesce : List String → List (String × Int)
  | [] => []
  | n :: rest =>
    (n, 1 + (rest.filter (fun m => normName m == normName n)).length) ::
      coalesce (rest.filter (fun m => normName m != normName n))
termination_by l => l.length
decreasing_by
  simp only [List.length_cons]
  exact Nat.lt_succ_of_le (List.length_filter_le _ _)

/-- Modelled from the spec: `handle_upload(sensor_json, image_bytes?,
username)` of the Upload Endpoint Coordinator (spec section 4.4), over an
abstract image type and abstract guardrail / vision services.  Steps in
order: reject an empty username with `MissingUsername`; reject a malformed
`data` part with `InvalidPayload`; replace the shared SensorSnapshot
atomically; when an image is present run Guardrail then Vision Analyzer,
catching a Vision failure as a degraded response (`image_processed = false`,
`food_items = []`) with the sensor data still recorded; on successful
detection merge the coalesced detected names into the user's inventory.  An
error returns the state unchanged. -/
def handle_upload {Image : Type}
    (guard : Image → GuardrailVerdict)
    (vision : Image → SensorData → Except ApiError DetectionResult)
    (state : ServerState) (username : String) (data : DataPart)
    (image : Option Image) : Except ApiError UploadResponse × ServerState :=
  if username = "" then (.error .MissingUsername, state)
  else
    match data with
    | .malformed => (.error .InvalidPayload, state)
    | .wellFormed d =>
      let state1 : ServerState := { state with snapshot := some d }
      match image with
      | none =>
        (.ok { image_processed := false, food_items := [], guardrail := none,
               temperature_status := tempStatus d.temp }, state1)
      | some img =>
        let g := guard img
        match vision img d with
        | .error _ =>
          (.ok { image_processed := false, food_items := [], guardrail := some g,
                 temperature_status := tempStatus d.temp }, state1)
        | .ok det =>
          let names := det.detections.map (fun p => p.1)
          let state2 : ServerState :=
            { state1 with store := merge state1.store username (coalesce names) }
          (.ok { image_processed := true, food_items := names, guardrail := some g,
                 temperature_status := tempStatus d.temp }, state2)

/-- A write operation of the Item Reconciliation Engine: a single `upsert` or
a `merge` of a detection round. -/
inductive Op where
  | up : String → String → Int → Option String → Op
  | mg : String → List (String × Int) → Op
deriving Repr

/-- Apply one reconciliation operation to the store; a rejected `upsert`
leaves the store as it was (the endpoint returns 4xx without a new state). -/
def applyOp (st : Store) : Op → Store
  | .up username nm d e? =>
    match upsert st username nm d e? with
    | .ok st' => st'
    | .error _ => st
  | .mg username detected => merge st username detected

/-- Run a sequence of reconciliation operations from a given store. -/
def runOps (st : Store) (ops : List Op) : Store := ops.foldl applyOp st

/-- The per-user inventory invariant of spec section 3: no two Items of one
user share a name under case-insensitive, trimmed comparison. -/
def NamesOk (items : List Item) : Prop :=
  (items.map fun it => normName it.name).Nodup

/-- The inventory invariant over the whole store: every user's item list has
pairwise-distinct normalised names. -/
def InvariantStore (st : Store) : Prop :=
  ∀ u ∈ st.users, NamesOk u.items

/-- The HTTP status of an upload result: a produced response is 200, an error
maps through `errStatus`. -/
def uploadStatus (r : Except ApiError UploadResponse) : Nat :=
  match r with
  | .ok _ => 200
  | .error e => errStatus e

/-- Modelled from the spec: the role of a conversation turn (spec section 3:
"role: user|assistant"). -/
inductive Role where
  | user : Role
  | assistant : Role
deriving DecidableEq, Repr

/-- Modelled from the spec: one turn of a Session's conversation history. -/
structure Turn where
  role : Role
  content : String
deriving DecidableEq, Repr

/-- Modelled from the spec: a Session row — opaque identifier, optional
username, ordered turns (spec section 3). -/
structure Session where
  sessionId : String
  username : Option String
  turns : List Turn
deriving DecidableEq, Repr

/-- Look up a session by id (first match). -/
def getSession (sessions : List Session) (sid : String) : Option Session :=
  sessions.find? (fun s => s.sessionId == sid)

/-- Store a session under its id: replace the rows carrying the id, or append
the session when the id is unseen (spec section 4.5 `get_or_create`). -/
def putSession (sessions : List Session) (sid : String) (s : Session) :
    List Session :=
  if (sessions.find? (fun t => t.sessionId == sid)).isSome then
    sessions.map (fun t => if t.sessionId = sid then s else t)
  else sessions ++ [s]

/-- Modelled from the spec: the apology the Chat Orchestrator returns when the
language-model call fails (spec section 4.6: "on failure ... returns a
graceful apology message"). -/
def apologyMessage : String :=
  "Sorry, I am having trouble answering right now. Please try again later."

/-- Modelled from the spec: the external dependencies of one chat call.
`llm` is the language-model service, given the (bounded) prior turns, the
caller's inventory, the latest snapshot and the new message.  `pre` models
the outcome of the work that precedes response production (context loading /
validation, e.g. a `StorageError`): a chat call that errors before producing
any response message is one whose `pre` is an error. -/
structure ChatDeps where
  llm : List Turn → List Item → Option SensorData → String →
    Except ApiError String
  pre : Except ApiError Unit

/-- Modelled from the spec: the session loaded (or created for an unseen id)
by the Chat Orchestrator (spec sections 4.5 and 4.6). -/
def chatSession (sessions : List Session) (sid : String)
    (username? : Option String) : Session :=
  match getSession sessions sid with
  | some s => s
  | none => { sessionId := sid, username := username?, turns := [] }

/-- Modelled from the spec: the inventory the Chat Orchestrator grounds the
prompt in — the user's items when a username is given, empty otherwise (spec
section 4.6). -/
def chatItems (inv : Store) (username? : Option String) : List Item :=
  match username? with
  | some u =>
    (match getUser inv u with
     | some ur => ur.items
     | none => [])
  | none => []

/-- Modelled from the spec: the reply the orchestrator produces — the
language-model answer, degraded to the apology on failure (spec section
4.6).  The history passed to the model is bounded to the most recent 10
turns. -/
def chatReply (deps : ChatDeps) (inv : Store) (snap : Option SensorData)
    (sess : Session) (username? : Option String) (msg : String) : String :=
  match deps.llm (sess.turns.drop (sess.turns.length - 10))
      (chatItems inv username?) snap msg with
  | .ok r => r
  | .error _ => apologyMessage

/-- Modelled from the spec: `respond(session_id, username?, user_message)` of
the Chat Orchestrator (spec section 4.6).  A failure before any response
message is produced surfaces as an error with the session list untouched.
Otherwise the orchestrator loads the session (creating one for an unseen id),
produces a reply via `chatReply`, and only then appends the user turn followed
by the assistant turn to the session. -/
def respond (deps : ChatDeps) (inv : Store) (snap : Option SensorData)
    (sessions : List Session) (sid : String) (username? : Option String)
    (msg : String) : Except ApiError String × List Session :=
  match deps.pre with
  | .error e => (.error e, sessions)
  | .ok _ =>
    let sess := chatSession sessions sid username?
    let reply := chatReply deps inv snap sess username? msg
    let sess' := { sess with turns :=
      sess.turns ++ [{ role := .user, content := msg },
                     { role := .assistant, content := reply }] }
    (.ok reply, putSession sessions sid sess')

end Backend

namespace Backend

theorem getUser_mem {st : Store} {username : String} {u : UserRec}
    (h : getUser st username = some u) : u ∈ st.users :=
  List.mem_of_find?_eq_some h

theorem getUser_setUserItems {users : List UserRec} {username : String}
    {u : UserRec} (items' : List Item)
    (h : users.find? (fun v => v.username == username) = some u) :
    (setUserItems users username items').find? (fun v => v.username == username) =
      some { u with items := items' } := by
  induction users with
  | nil => simp at h
  | cons hd tl ih =>
    by_cases hhd : hd.username = username
    · rw [List.find?_cons_of_pos _ (by simp [hhd])] at h
      cases h
      simp only [setUserItems, List.map_cons, if_pos hhd]
      exact List.find?_cons_of_pos _ (by simp [hhd])
    · rw [List.find?_cons_of_neg _ (by simp [hhd])] at h
      simp only [setUserItems, List.map_cons, if_neg hhd]
      rw [List.find?_cons_of_neg _ (by simp [hhd])]
      exact ih h

theorem getUser_after_set {st : Store} {username : String} {u : UserRec}
    (items' : List Item) (nid : Nat)
    (h : getUser st username = some u) :
    getUser { users := setUserItems st.users username items', nextId := nid }
        username = some { u with items := items' } :=
  getUser_setUserItems items' h

theorem mergeExisting_names {items : List Item} {nm : String} {d : Int}
    {e? : Option String} {items' : List Item}
    (h : mergeExisting items nm d e? = some (.ok items')) :
    items'.map (fun it => normName it.name) =
      items.map (fun it => normName it.name) := by
  induction items generalizing items' with
  | nil => simp [mergeExisting] at h
  | cons hd tl ih =>
    simp only [mergeExisting] at h
    by_cases hhd : normName hd.name = normName nm
    · rw [if_pos hhd] at h
      by_cases hq : hd.quantity + d < 0
      · rw [if_pos hq] at h
        simp at h
      · rw [if_neg hq] at h
        simp only [Option.some.injEq, Except.ok.injEq] at h
        subst h
        simp [bumpItem]
    · rw [if_neg hhd] at h
      cases hrec : mergeExisting tl nm d e? with
      | none => rw [hrec] at h; simp at h
      | some r =>
        cases r with
        | error e => rw [hrec] at h; simp at h
        | ok tl' =>
          rw [hrec] at h
          simp only [Option.some.injEq, Except.ok.injEq] at h
          subst h
          simp [ih hrec]

theorem mergeExisting_none {items : List Item} {nm : String} {d : Int}
    {e? : Option String} (h : mergeExisting items nm d e? = none) :
    ∀ it ∈ items, normName it.name ≠ normName nm := by
  induction items with
  | nil => simp
  | cons hd tl ih =>
    simp only [mergeExisting] at h
    by_cases hhd : normName hd.name = normName nm
    · rw [if_pos hhd] at h; simp at h
    · rw [if_neg hhd] at h
      intro it hit
      rcases List.mem_cons.mp hit with rfl | hmem
      · exact hhd
      · cases hrec : mergeExisting tl nm d e? with
        | none => exact ih hrec it hmem
        | some r => rw [hrec] at h; cases r <;> simp at h

theorem NamesOk_of_map_eq {items items' : List Item}
    (h : items'.map (fun it => normName it.name) =
         items.map (fun it => normName it.name))
    (hok : NamesOk items) : NamesOk items' := by
  unfold NamesOk at hok ⊢
  rw [h]
  exact hok

theorem upsert_preserves {st st' : Store} {username nm : String} {d : Int}
    {e? : Option String} (hinv : InvariantStore st)
    (h : upsert st username nm d e? = .ok st') : InvariantStore st' := by
  unfold upsert at h
  split at h
  case _ hu =>
    simp only [Except.ok.injEq] at h
    subst h
    intro u hu'
    rcases List.mem_append.mp hu' with hmem | hmem
    · exact hinv u hmem
    · simp only [List.mem_singleton] at hmem
      subst hmem
      simp [NamesOk]
  case _ u hu =>
    have huok : NamesOk u.items := hinv u (getUser_mem hu)
    split at h
    case _ e hm =>
      simp at h
    case _ items' hm =>
      simp only [Except.ok.injEq] at h
      subst h
      intro v hv
      simp only [setUserItems, List.mem_map] at hv
      obtain ⟨w, hw, hweq⟩ := hv
      by_cases hwname : w.username = username
      · rw [if_pos hwname] at hweq
        subst hweq
        exact NamesOk_of_map_eq (mergeExisting_names hm) huok
      · rw [if_neg hwname] at hweq
        subst hweq
        exact hinv w hw
    case _ hm =>
      simp only [Except.ok.injEq] at h
      subst h
      intro v hv
      simp only [setUserItems, List.mem_map] at hv
      obtain ⟨w, hw, hweq⟩ := hv
      by_cases hwname : w.username = username
      · rw [if_pos hwname] at hweq
        subst hweq
        simp only [NamesOk, List.map_append, List.map_cons, List.map_nil]
        rw [List.nodup_append]
        refine ⟨huok, List.nodup_singleton _, ?_⟩
        intro a ha hb
        simp only [List.mem_singleton] at hb
        subst hb
        simp only [List.mem_map] at ha
        obtain ⟨it, hit, hitname⟩ := ha
        exact mergeExisting_none hm it hit hitname
      · rw [if_neg hwname] at hweq
        subst hweq
        exact hinv w hw

theorem applyOp_preserves {st : Store} (op : Op) (hinv : InvariantStore st) :
    InvariantStore (applyOp st op) := by
  cases op with
  | up username nm d e? =>
    simp only [applyOp]
    cases h : upsert st username nm d e? with
    | ok st' => exact upsert_preserves hinv h
    | error e => exact hinv
  | mg username detected =>
    simp only [applyOp, merge]
    induction detected generalizing st with
    | nil => exact hinv
    | cons hd tl ih =>
      simp only [List.foldl_cons]
      cases h : upsert st username hd.1 hd.2 none with
      | ok st' => exact ih (upsert_preserves hinv h)
      | error e => exact ih hinv

theorem runOps_preserves {st : Store} (ops : List Op) (hinv : InvariantStore st) :
    InvariantStore (runOps st ops) := by
  induction ops generalizing st with
  | nil => exact hinv
  | cons hd tl ih =>
    unfold runOps at ih ⊢
    simp only [List.foldl_cons]
    exact ih (applyOp_preserves hd hinv)

end Backend

namespace Backend

theorem findNorm_merge_neg {items : List Item} {nm : String} {it : Item}
    (hf : findNorm items nm = some it) (d : Int) (e? : Option String)
    (hneg : it.quantity + d < 0) :
    mergeExisting items nm d e? = some (.error .InvalidQuantity) := by
  induction items with
  | nil => simp [findNorm] at hf
  | cons hd tl ih =>
    by_cases hhd : normName hd.name = normName nm
    · unfold findNorm at hf
      rw [List.find?_cons_of_pos _ (by simp [hhd])] at hf
      cases hf
      simp only [mergeExisting, if_pos hhd, if_pos hneg]
    · unfold findNorm at hf
      rw [List.find?_cons_of_neg _ (by simp [hhd])] at hf
      simp only [mergeExisting, if_neg hhd]
      rw [ih hf]

theorem findNorm_merge_nonneg {items : List Item} {nm : String} {it : Item}
    (hf : findNorm items nm = some it) (d : Int) (e? : Option String)
    (hpos : 0 ≤ it.quantity + d) :
    ∃ items', mergeExisting items nm d e? = some (.ok items') ∧
      ∃ it', findNorm items' nm = some it' ∧ it'.quantity = it.quantity + d := by
  induction items with
  | nil => simp [findNorm] at hf
  | cons hd tl ih =>
    by_cases hhd : normName hd.name = normName nm
    · unfold findNorm at hf
      rw [List.find?_cons_of_pos _ (by simp [hhd])] at hf
      cases hf
      have hq : ¬ it.quantity + d < 0 := by omega
      refine ⟨bumpItem it d e? :: tl, ?_, ?_⟩
      · simp only [mergeExisting, if_pos hhd, if_neg hq]
      · refine ⟨bumpItem it d e?, ?_, rfl⟩
        unfold findNorm
        exact List.find?_cons_of_pos _ (by simp [bumpItem, hhd])
    · unfold findNorm at hf
      rw [List.find?_cons_of_neg _ (by simp [hhd])] at hf
      obtain ⟨tl', htl', it', hit', hq⟩ := ih hf
      refine ⟨hd :: tl', ?_, it', ?_, hq⟩
      · simp only [mergeExisting, if_neg hhd]
        rw [htl']
      · unfold findNorm
        rw [List.find?_cons_of_neg _ (by simp [hhd])]
        exact hit'

/-- The conversation history currently stored for a session id: empty when the
id is unseen. -/
def sessionTurns (sessions : List Session) (sid : String) : List Turn :=
  match getSession sessions sid with
  | some s => s.turns
  | none => []

theorem getSession_sessionId {sessions : List Session} {sid : String}
    {s : Session} (h : getSession sessions sid = some s) : s.sessionId = sid := by
  have hp := List.find?_some h
  simpa using hp

theorem getSession_putSession (sessions : List Session) {sid : String}
    {s : Session} (hs : s.sessionId = sid) :
    getSession (putSession sessions sid s) sid = some s := by
  induction sessions with
  | nil =>
    simp only [putSession, List.find?_nil, Option.isSome_none, Bool.false_eq_true,
      if_false, List.nil_append, getSession]
    exact List.find?_cons_of_pos _ (by simp [hs])
  | cons hd tl ih =>
    unfold putSession at ih ⊢
    by_cases hhd : hd.sessionId = sid
    · rw [List.find?_cons_of_pos _ (by simp [hhd])]
      simp only [Option.isSome_some, if_true, List.map_cons, if_pos hhd]
      unfold getSession
      exact List.find?_cons_of_pos _ (by simp [hs])
    · rw [List.find?_cons_of_neg _ (by simp [hhd])]
      cases hft : tl.find? (fun t => t.sessionId == sid) with
      | some t =>
        rw [hft] at ih
        simp only [Option.isSome_some, if_true] at ih ⊢
        simp only [List.map_cons, if_neg hhd]
        unfold getSession at ih ⊢
        rw [List.find?_cons_of_neg _ (by simp [hhd])]
        exact ih
      | none =>
        rw [hft] at ih
        simp only [Option.isSome_none, Bool.false_eq_true, if_false] at ih ⊢
        unfold getSession at ih ⊢
        rw [List.cons_append, List.find?_cons_of_neg _ (by simp [hhd])]
        exact ih

theorem respond_ok_turns {deps : ChatDeps} (hpre : deps.pre = .ok ())
    (inv : Store) (snap : Option SensorData) (sessions : List Session)
    (sid : String) (un : Option String) (msg : String) :
    ∃ reply s',
      (respond deps inv snap sessions sid un msg).1 = .ok reply ∧
      (respond deps inv snap sessions sid un msg).2 = putSession sessions sid s' ∧
      s'.sessionId = sid ∧
      s'.turns = sessionTurns sessions sid ++
        [{ role := .user, content := msg }, { role := .assistant, content := reply }] := by
  refine ⟨chatReply deps inv snap (chatSession sessions sid un) un msg,
    { chatSession sessions sid un with turns :=
        (chatSession sessions sid un).turns ++
          [{ role := .user, content := msg },
           { role := .assistant,
             content := chatReply deps inv snap (chatSession sessions sid un) un msg }] },
    ?_, ?_, ?_, ?_⟩
  · unfold respond
    rw [hpre]
  · unfold respond
    rw [hpre]
  · cases hg : getSession sessions sid with
    | some s0 => simpa [chatSession, hg] using getSession_sessionId hg
    | none => simp [chatSession, hg]
  · cases hg : getSession sessions sid with
    | some s0 => simp [chatSession, sessionTurns, hg]
    | none => simp [chatSession, sessionTurns, hg]

end Backend

namespace Backend

/-- A one-user, one-item store used by the concrete witnesses. -/
def sampleItem : Item := { id := 1, name := "Milk", quantity := 2, expiry := none }

/-- A store holding exactly the user "u" with `sampleItem`. -/
def sampleStore : Store :=
  { users := [{ username := "u", items := [sampleItem] }], nextId := 2 }

/-- The store obtained from `sampleStore` by removing its only item. -/
def sampleStoreAfterRemove : Store :=
  { users := [{ username := "u", items := [] }], nextId := 2 }

theorem any_filter_ne (items : List Item) (itemId : Nat) :
    ((items.filter (fun it => it.id != itemId)).any
      (fun it => it.id == itemId)) = false := by
  induction items with
  | nil => rfl
  | cons hd tl ih =>
    by_cases h : hd.id = itemId
    · simp [List.filter_cons, h, ih]
    · simp [List.filter_cons, h, ih]

end Backend

/-- C9: the sensor-status classifier `getSensorStatus` is total: for every
type string and every value it returns one of danger, warning or normal; an
unrecognised type yields normal, and an undefined reading yields normal. -/
theorem C9_getSensorStatus_total (type : String) (v : Frontend.JsVal) :
    (Frontend.getSensorStatus type v = "danger" ∨
     Frontend.getSensorStatus type v = "warning" ∨
     Frontend.getSensorStatus type v = "normal") ∧
    (type ∉ (["temp", "humidity", "gas"] : List String) →
      Frontend.getSensorStatus type v = "normal") ∧
    Frontend.getSensorStatus type Frontend.JsVal.undef = "normal" := by
  refine ⟨?_, ?_, ?_⟩
  · unfold Frontend.getSensorStatus
    split_ifs <;> simp
  · intro hmem
    unfold Frontend.getSensorStatus
    split_ifs <;> simp_all
  · unfold Frontend.getSensorStatus
    simp [Frontend.jsLt, Frontend.jsGt]

/-- Witness for C9 at a concrete unrecognised sensor type. -/
theorem C9_getSensorStatus_total_witness :
    ("pressure" ∉ (["temp", "humidity", "gas"] : List String)) ∧
    Frontend.getSensorStatus "pressure" (Frontend.JsVal.num 5) = "normal" :=
  ⟨by decide,
   (C9_getSensorStatus_total "pressure" (Frontend.JsVal.num 5)).2.1 (by decide)⟩

/-- C2 counterexample: at temperature 1 the claimed thresholds classify the
reading as danger (1 < 2), yet the legacy dashboard's `updateSensorReadings`
(which highlights with `temp > 5 || temp < 1`) applies no warning class — so
it is not true that every component classifying temperature uses the
2/3/6/7 thresholds. -/
theorem C2_counterexample :
    Frontend.getSensorStatus "temp" (Frontend.JsVal.num 1) = "danger" ∧
    Dashboard.updateTempClass (some 1) "reading-value" = "reading-value" ∧
    ("reading-value" : String) ≠ "reading-value warning" := by
  refine ⟨by decide, by decide, by decide⟩

/-- C2 amended: `getSensorStatus` classifies temperature exactly by the fixed
thresholds (danger below 2 or above 7, warning below 3 or above 6, otherwise
normal), with the stated outcomes at the boundary values 2, 3, 6 and 7; the
legacy dashboard's `updateSensorReadings`, however, highlights the temperature
reading with the different fixed thresholds 1 and 5 (warning class exactly
when temp > 5 or temp < 1). -/
theorem C2_amended_temp_thresholds (t : ℚ) :
    (Frontend.getSensorStatus "temp" (Frontend.JsVal.num t) =
      if t < 2 ∨ t > 7 then "danger"
      else if t < 3 ∨ t > 6 then "warning"
      else "normal") ∧
    Frontend.getSensorStatus "temp" (Frontend.JsVal.num 2) = "warning" ∧
    Frontend.getSensorStatus "temp" (Frontend.JsVal.num 3) = "normal" ∧
    Frontend.getSensorStatus "temp" (Frontend.JsVal.num 6) = "normal" ∧
    Frontend.getSensorStatus "temp" (Frontend.JsVal.num 7) = "warning" ∧
    (Dashboard.updateTempClass (some t) "reading-value" = "reading-value warning"
      ↔ (t > 5 ∨ t < 1)) := by
  refine ⟨?_, by decide, by decide, by decide, by decide, ?_⟩
  · unfold Frontend.getSensorStatus
    split_ifs <;> simp_all [Frontend.jsLt, Frontend.jsGt]
  · simp only [Dashboard.updateTempClass]
    split_ifs <;> simp_all

/-- Helper bound for the retry loop: from any attempt counter with the
success flag still false, the loop performs at most
`MAX_RETRY_ATTEMPTS - attempt` further iterations. -/
theorem chatRequestCount_le (outcomes : Nat → Dashboard.FetchOutcome) :
    ∀ k attempt, Dashboard.MAX_RETRY_ATTEMPTS - attempt ≤ k →
      Dashboard.chatRequestCount outcomes attempt false ≤
        Dashboard.MAX_RETRY_ATTEMPTS - attempt := by
  intro k
  induction k with
  | zero =>
    intro attempt h
    rw [Dashboard.chatRequestCount]
    rw [dif_neg (by simp only [Dashboard.MAX_RETRY_ATTEMPTS] at h ⊢; omega)]
    omega
  | succ k ih =>
    intro attempt h
    by_cases hlt : attempt < Dashboard.MAX_RETRY_ATTEMPTS
    · rw [Dashboard.chatRequestCount, dif_pos ⟨hlt, rfl⟩]
      cases houtcome : outcomes attempt with
      | ok =>
        show 1 + Dashboard.chatRequestCount outcomes attempt true ≤ _
        rw [Dashboard.chatRequestCount, dif_neg (by simp)]
        omega
      | httpError =>
        show 1 + Dashboard.chatRequestCount outcomes (attempt + 1) false ≤ _
        have hrec := ih (attempt + 1)
          (by simp only [Dashboard.MAX_RETRY_ATTEMPTS] at h ⊢; omega)
        simp only [Dashboard.MAX_RETRY_ATTEMPTS] at hlt hrec ⊢
        omega
      | networkError =>
        show 1 + Dashboard.chatRequestCount outcomes (attempt + 1) false ≤ _
        have hrec := ih (attempt + 1)
          (by simp only [Dashboard.MAX_RETRY_ATTEMPTS] at h ⊢; omega)
        simp only [Dashboard.MAX_RETRY_ATTEMPTS] at hlt hrec ⊢
        omega
    · rw [Dashboard.chatRequestCount, dif_neg (by simp [hlt])]
      omega

/-- C10: the `sendMessage` retry loop issues at most
`MAX_RETRY_ATTEMPTS = 3` POST requests for any sequence of fetch outcomes
(the iteration count equals the request count, one fetch per iteration, and
the totality of `chatRequestCount` is the termination of the loop). -/
theorem C10_retry_loop_bounded (outcomes : Nat → Dashboard.FetchOutcome) :
    Dashboard.chatRequestCount outcomes 0 false ≤ Dashboard.MAX_RETRY_ATTEMPTS ∧
    Dashboard.chatRequestCount outcomes 0 false ≤ 3 ∧
    Dashboard.MAX_RETRY_ATTEMPTS = 3 := by
  have h := chatRequestCount_le outcomes Dashboard.MAX_RETRY_ATTEMPTS 0 (by omega)
  simp only [Dashboard.MAX_RETRY_ATTEMPTS] at h
  refine ⟨?_, ?_, rfl⟩
  · simpa [Dashboard.MAX_RETRY_ATTEMPTS] using h
  · simpa using h

/-- C7: reading the items of an unknown user returns `NotFound` (HTTP 404),
leaves the store untouched (in particular creates no user), and never
produces a 200 response with an empty list. -/
theorem C7_unknown_user_items (st : Backend.Store) (username : String)
    (h : Backend.getUser st username = none) :
    (Backend.getUserItemsEndpoint st username).1 = .error .NotFound ∧
    (Backend.getUserItemsEndpoint st username).2 = st ∧
    Backend.errStatus .NotFound = 404 ∧
    ∀ l : List Backend.Item,
      (Backend.getUserItemsEndpoint st username).1 ≠ .ok l := by
  unfold Backend.getUserItemsEndpoint
  rw [h]
  refine ⟨rfl, rfl, rfl, ?_⟩
  intro l hl
  exact Except.noConfusion hl

/-- Witness for C7 on the empty store and the username "ghost". -/
theorem C7_unknown_user_items_witness :
    Backend.getUser Backend.emptyStore "ghost" = none ∧
    (Backend.getUserItemsEndpoint Backend.emptyStore "ghost").1 =
      .error .NotFound ∧
    (Backend.getUserItemsEndpoint Backend.emptyStore "ghost").2 =
      Backend.emptyStore ∧
    Backend.errStatus .NotFound = 404 :=
  ⟨rfl, (C7_unknown_user_items Backend.emptyStore "ghost" rfl).1,
   (C7_unknown_user_items Backend.emptyStore "ghost" rfl).2.1,
   (C7_unknown_user_items Backend.emptyStore "ghost" rfl).2.2.1⟩

/-- C6: `remove` fails with `NotFound` when the user is unknown or when the
user owns no item with the given id, and after a successful removal a second
removal of the same id fails with `NotFound` rather than succeeding
silently. -/
theorem C6_remove_explicit_failure (st st' : Backend.Store) (username : String)
    (itemId : Nat) :
    (Backend.getUser st username = none →
      Backend.removeItem st username itemId = .error .NotFound) ∧
    (∀ u, Backend.getUser st username = some u →
      (∀ it ∈ u.items, it.id ≠ itemId) →
      Backend.removeItem st username itemId = .error .NotFound) ∧
    (Backend.removeItem st username itemId = .ok st' →
      Backend.removeItem st' username itemId = .error .NotFound) := by
  refine ⟨?_, ?_, ?_⟩
  · intro h
    unfold Backend.removeItem
    rw [h]
  · intro u hu hne
    have hcond : (u.items.any fun it => it.id == itemId) = false := by
      cases hb : u.items.any fun it => it.id == itemId
      · rfl
      · obtain ⟨it, hit, hid⟩ := List.any_eq_true.mp hb
        exact absurd (by simpa using hid) (hne it hit)
    simp only [Backend.removeItem, hu, hcond, Bool.false_eq_true, if_false]
  · intro hok
    unfold Backend.removeItem at hok
    split at hok
    · exact Except.noConfusion hok
    case _ u hu =>
      split at hok
      case _ hany =>
        simp only [Except.ok.injEq] at hok
        subst hok
        have hg := Backend.getUser_after_set
          (List.filter (fun it => it.id != itemId) u.items) st.nextId hu
        simp only [Backend.removeItem, hg, Backend.any_filter_ne,
          Bool.false_eq_true, if_false]
      case _ hany => exact Except.noConfusion hok

/-- Witness for C6: removing item 1 of user "u" from the sample store
succeeds once and fails with `NotFound` the second time; removing from an
unknown user fails with `NotFound`. -/
theorem C6_remove_explicit_failure_witness :
    Backend.removeItem Backend.sampleStore "u" 1 =
      .ok Backend.sampleStoreAfterRemove ∧
    Backend.removeItem Backend.sampleStoreAfterRemove "u" 1 =
      .error .NotFound ∧
    Backend.removeItem Backend.sampleStore "ghost" 1 = .error .NotFound :=
  ⟨rfl,
   (C6_remove_explicit_failure Backend.sampleStore Backend.sampleStoreAfterRemove
     "u" 1).2.2 rfl,
   (C6_remove_explicit_failure Backend.sampleStore Backend.sampleStore
     "ghost" 1).1 rfl⟩

namespace Backend

/-- A trivial guardrail used by the concrete upload witnesses. -/
def unitGuard : Unit → GuardrailVerdict :=
  fun _ => { is_food_likely := true, confidence := 1, method := "heuristic" }

/-- A vision service that always fails with `VisionUnavailable`. -/
def visionDown : Unit → SensorData → Except ApiError DetectionResult :=
  fun _ _ => .error .VisionUnavailable

/-- A sample sensor reading used by the upload witnesses. -/
def sampleSensor : SensorData :=
  { temp := 4, humidity := 50, gas := 100, timestamp := "t0" }

/-- A sample server state wrapping `sampleStore` with no snapshot yet. -/
def sampleState : ServerState := { snapshot := none, store := sampleStore }

/-- Chat dependencies whose language model always answers and whose context
loading succeeds, used by the chat witnesses. -/
def chatDepsUp : ChatDeps :=
  { llm := fun _ _ _ _ => .ok "the fridge is fine", pre := .ok () }

/-- Chat dependencies whose context loading fails with `StorageError`. -/
def chatDepsDown : ChatDeps :=
  { llm := fun _ _ _ _ => .ok "unreachable", pre := .error .StorageError }

end Backend

/-- C1: every sequence of merge/upsert operations from a fresh store keeps
the inventory invariant — no user ever holds two items whose names are equal
under case-insensitive, trimmed comparison — and upserting "Apple" with
quantity 3 and then "apple" with quantity 5 for a new user yields exactly one
item row with quantity 8. -/
theorem C1_inventory_invariant (ops : List Backend.Op) :
    Backend.InvariantStore (Backend.runOps Backend.emptyStore ops) ∧
    Backend.runOps Backend.emptyStore
        [Backend.Op.up "newuser" "Apple" 3 none,
         Backend.Op.up "newuser" "apple" 5 none] =
      { users := [{ username := "newuser",
                    items := [{ id := 0, name := "Apple", quantity := 8,
                                expiry := none }] }],
        nextId := 1 } := by
  constructor
  · exact Backend.runOps_preserves ops
      (by intro u hu; simp [Backend.emptyStore] at hu)
  · rfl

/-- C3: for an existing item of an existing user, an upsert whose delta would
drive the stored quantity below zero fails with `InvalidQuantity` (a 400
error, producing no new store), while a delta keeping the quantity at or
above zero updates the stored quantity to exactly `q + d`. -/
theorem C3_negative_quantity_guard (st : Backend.Store) (username nm : String)
    (u : Backend.UserRec) (it : Backend.Item)
    (hu : Backend.getUser st username = some u)
    (hit : Backend.findNorm u.items nm = some it) :
    (∀ d : Int, ∀ e? : Option String, it.quantity + d < 0 →
      Backend.upsert st username nm d e? = .error .InvalidQuantity) ∧
    (∀ d : Int, ∀ e? : Option String, 0 ≤ it.quantity + d →
      ∃ st' u' it', Backend.upsert st username nm d e? = .ok st' ∧
        Backend.getUser st' username = some u' ∧
        Backend.findNorm u'.items nm = some it' ∧
        it'.quantity = it.quantity + d) ∧
    Backend.errStatus .InvalidQuantity = 400 := by
  refine ⟨?_, ?_, rfl⟩
  · intro d e? hneg
    have hm := Backend.findNorm_merge_neg hit d e? hneg
    simp only [Backend.upsert, hu, hm]
  · intro d e? hpos
    obtain ⟨items', hm, it', hit', hq⟩ :=
      Backend.findNorm_merge_nonneg hit d e? hpos
    refine ⟨{ users := Backend.setUserItems st.users username items',
              nextId := st.nextId },
      { u with items := items' }, it', ?_, ?_, hit', hq⟩
    · simp only [Backend.upsert, hu, hm]
    · exact Backend.getUser_after_set items' st.nextId hu

/-- Witness for C3 on the sample store: quantity 2, delta -5 is rejected with
`InvalidQuantity`; delta -2 succeeds and stores quantity 0. -/
theorem C3_negative_quantity_guard_witness :
    Backend.getUser Backend.sampleStore "u" =
      some { username := "u", items := [Backend.sampleItem] } ∧
    Backend.findNorm [Backend.sampleItem] "milk" = some Backend.sampleItem ∧
    Backend.sampleItem.quantity + (-5) < 0 ∧
    Backend.upsert Backend.sampleStore "u" "milk" (-5) none =
      .error .InvalidQuantity ∧
    (∃ st' u' it',
      Backend.upsert Backend.sampleStore "u" "milk" (-2) none = .ok st' ∧
      Backend.getUser st' "u" = some u' ∧
      Backend.findNorm u'.items "milk" = some it' ∧
      it'.quantity = Backend.sampleItem.quantity + (-2)) := by
  have h := C3_negative_quantity_guard Backend.sampleStore "u" "milk"
    { username := "u", items := [Backend.sampleItem] } Backend.sampleItem rfl rfl
  exact ⟨rfl, rfl, by decide, h.1 (-5) none (by decide),
    h.2.1 (-2) none (by decide)⟩

/-- C4 counterexample: an upload whose `data` part is malformed but whose
username is empty fails with `MissingUsername`, not `InvalidPayload` — the
username check runs before payload parsing, so the claim as stated fails on
this input. -/
theorem C4_counterexample :
    (Backend.handle_upload Backend.unitGuard Backend.visionDown
        Backend.sampleState "" Backend.DataPart.malformed none).1 =
      .error .MissingUsername ∧
    Backend.ApiError.MissingUsername ≠ Backend.ApiError.InvalidPayload :=
  ⟨rfl, by decide⟩

/-- C4 amended: an upload whose `data` part is not valid JSON always fails
with a 400 error — `InvalidPayload` when the username is non-empty,
`MissingUsername` when it is empty (the username check runs first) — and the
server state (shared SensorSnapshot and every Item row) is returned
unchanged. -/
theorem C4_amended_malformed_payload {Image : Type}
    (guard : Image → Backend.GuardrailVerdict)
    (vision : Image → Backend.SensorData →
      Except Backend.ApiError Backend.DetectionResult)
    (state : Backend.ServerState) (username : String) (image : Option Image) :
    (Backend.handle_upload guard vision state username .malformed image).2 =
      state ∧
    (if username = "" then
      (Backend.handle_upload guard vision state username .malformed image).1 =
        .error .MissingUsername
     else
      (Backend.handle_upload guard vision state username .malformed image).1 =
        .error .InvalidPayload) ∧
    Backend.errStatus .MissingUsername = 400 ∧
    Backend.errStatus .InvalidPayload = 400 := by
  by_cases hn : username = ""
  · simp [Backend.handle_upload, hn, Backend.errStatus]
  · simp [Backend.handle_upload, hn, Backend.errStatus]

/-- C5: when the Vision Analyzer fails with `VisionUnavailable` on an upload
carrying valid sensor JSON, a non-empty username and an image, the response
is still a 200 (never a 500) with `image_processed = false` and
`food_items = []`, the shared SensorSnapshot is replaced with the new
reading, and no Item row of any user changes. -/
theorem C5_vision_failure_degrades {Image : Type}
    (guard : Image → Backend.GuardrailVerdict)
    (vision : Image → Backend.SensorData →
      Except Backend.ApiError Backend.DetectionResult)
    (state : Backend.ServerState) (username : String) (d : Backend.SensorData)
    (img : Image) (hn : username ≠ "")
    (hv : vision img d = .error .VisionUnavailable) :
    (Backend.handle_upload guard vision state username
        (.wellFormed d) (some img)).1 =
      .ok { image_processed := false, food_items := [],
            guardrail := some (guard img),
            temperature_status := Backend.tempStatus d.temp } ∧
    Backend.uploadStatus (Backend.handle_upload guard vision state username
      (.wellFormed d) (some img)).1 = 200 ∧
    Backend.uploadStatus (Backend.handle_upload guard vision state username
      (.wellFormed d) (some img)).1 ≠ 500 ∧
    (Backend.handle_upload guard vision state username
      (.wellFormed d) (some img)).2.snapshot = some d ∧
    (Backend.handle_upload guard vision state username
      (.wellFormed d) (some img)).2.store = state.store := by
  simp [Backend.handle_upload, hn, hv, Backend.uploadStatus]

/-- Witness for C5: on the sample state, with the always-failing vision
service, the sensor reading is recorded, the inventory is untouched and the
response is the degraded 200. -/
theorem C5_vision_failure_degrades_witness :
    ("u" : String) ≠ "" ∧
    Backend.visionDown () Backend.sampleSensor = .error .VisionUnavailable ∧
    (Backend.handle_upload Backend.unitGuard Backend.visionDown
        Backend.sampleState "u" (.wellFormed Backend.sampleSensor) (some ())).1 =
      .ok { image_processed := false, food_items := [],
            guardrail := some (Backend.unitGuard ()),
            temperature_status := Backend.tempStatus Backend.sampleSensor.temp } ∧
    (Backend.handle_upload Backend.unitGuard Backend.visionDown
        Backend.sampleState "u" (.wellFormed Backend.sampleSensor)
        (some ())).2.snapshot = some Backend.sampleSensor ∧
    (Backend.handle_upload Backend.unitGuard Backend.visionDown
        Backend.sampleState "u" (.wellFormed Backend.sampleSensor)
        (some ())).2.store = Backend.sampleState.store := by
  have h := C5_vision_failure_degrades Backend.unitGuard Backend.visionDown
    Backend.sampleState "u" Backend.sampleSensor () (by decide) rfl
  exact ⟨by decide, rfl, h.1, h.2.2.2.1, h.2.2.2.2⟩

/-- C8: two successful chat calls with the same session id leave a history
holding both user turns in submission order, each immediately followed by its
assistant turn, appended to whatever history the session already had; a chat
call that errors before producing any response message leaves the session
list exactly as it was (no user-only or half-written turn). -/
theorem C8_session_history (deps1 deps2 depsF : Backend.ChatDeps)
    (inv : Backend.Store) (snap : Option Backend.SensorData)
    (sessions : List Backend.Session) (sid : String) (un : Option String)
    (m1 m2 mF : String) (e : Backend.ApiError)
    (h1 : deps1.pre = .ok ()) (h2 : deps2.pre = .ok ())
    (hF : depsF.pre = .error e) :
    (∃ r1 r2 s,
      Backend.getSession
        (Backend.respond deps2 inv snap
          (Backend.respond deps1 inv snap sessions sid un m1).2 sid un m2).2 sid
        = some s ∧
      s.turns = Backend.sessionTurns sessions sid ++
        [{ role := .user, content := m1 }, { role := .assistant, content := r1 },
         { role := .user, content := m2 },
         { role := .assistant, content := r2 }]) ∧
    (Backend.respond depsF inv snap sessions sid un mF).2 = sessions ∧
    (Backend.respond depsF inv snap sessions sid un mF).1 = .error e := by
  refine ⟨?_, ?_, ?_⟩
  · obtain ⟨r1, s1, _, hsnd1, hsid1, hturns1⟩ :=
      Backend.respond_ok_turns h1 inv snap sessions sid un m1
    obtain ⟨r2, s2, _, hsnd2, hsid2, hturns2⟩ :=
      Backend.respond_ok_turns h2 inv snap
        (Backend.respond deps1 inv snap sessions sid un m1).2 sid un m2
    refine ⟨r1, r2, s2, ?_, ?_⟩
    · rw [hsnd2]
      exact Backend.getSession_putSession _ hsid2
    · rw [hturns2]
      have hmid : Backend.sessionTurns
          (Backend.respond deps1 inv snap sessions sid un m1).2 sid = s1.turns := by
        unfold Backend.sessionTurns
        rw [hsnd1, Backend.getSession_putSession sessions hsid1]
      rw [hmid, hturns1]
      simp
  · unfold Backend.respond
    rw [hF]
  · unfold Backend.respond
    rw [hF]

/-- Witness for C8: with an always-answering model and a fresh session list,
two calls leave exactly the four turns, and the failing-dependencies call
leaves the empty session list unchanged. -/
theorem C8_session_history_witness :
    Backend.chatDepsUp.pre = .ok () ∧
    Backend.chatDepsDown.pre = .error .StorageError ∧
    (∃ r1 r2 s,
      Backend.getSession
        (Backend.respond Backend.chatDepsUp Backend.emptyStore none
          (Backend.respond Backend.chatDepsUp Backend.emptyStore none
            [] "s1" none "hi").2 "s1" none "bye").2 "s1" = some s ∧
      s.turns = Backend.sessionTurns [] "s1" ++
        [{ role := .user, content := "hi" },
         { role := .assistant, content := r1 },
         { role := .user, content := "bye" },
         { role := .assistant, content := r2 }]) ∧
    (Backend.respond Backend.chatDepsDown Backend.emptyStore none
      [] "s1" none "oops").2 = [] := by
  have h := C8_session_history Backend.chatDepsUp Backend.chatDepsUp
    Backend.chatDepsDown Backend.emptyStore none [] "s1" none
    "hi" "bye" "oops" Backend.ApiError.StorageError rfl rfl rfl
  exact ⟨rfl, rfl, h.1, h.2.1⟩
